import Mathlib

/-!
Verification development for the clipboard-sync server core in `app.py`:
the connection registry (`connected_clients`), the last-clipboard state
(`last_clipboard`), the WebSocket session handler (`websocket_endpoint`),
and the local clipboard poller (`start_clipboard_monitor` / `monitor`).

The embedding is shallow: the registry is an association list mirroring a
Python dict (unique keys, insertion order, in-place overwrite on repeated
assignment), the handler's per-message processing and the poller's per-tick
processing are pure step functions on an explicit server state, and the
environment's behaviour (whether a given peer's `send_json` succeeds,
whether `pyperclip` succeeds) is supplied as data on the connection model
or as an explicit argument.
-/

set_option autoImplicit false

namespace ClipSync

/-- Model of one WebSocket connection handle as the server core sees it:
`tag` distinguishes physical connections, `connected` models
`application_state == WebSocketState.CONNECTED` (app.py lines 83 and 138),
and `sendOk` models whether an `await ws.send_json(...)` on this handle
succeeds or raises (the except-branches at lines 90-91 and 146-148). -/
structure Conn where
  tag : Nat
  connected : Bool
  sendOk : Bool
deriving DecidableEq, Repr

/-- Model of the `connected_clients` dict: device id to connection, unique
keys, insertion-ordered. -/
abbrev Registry := List (String × Conn)

/-- Model of the shared mutable globals of app.py: `connected_clients`
(line 22) and `last_clipboard` (line 23). -/
structure ServerState where
  clients : Registry
  lastClipboard : String
deriving DecidableEq, Repr

/-- Module-level initial state: empty dict, empty string (app.py lines 22-23). -/
def initialState : ServerState := ⟨[], ""⟩

/-- Python dict lookup `connected_clients[k]` / `connected_clients.get(k)`:
first (and under the dict invariant, only) entry with the key. -/
def dictGet : Registry → String → Option Conn
  | [], _ => none
  | e :: rest, k => if e.1 = k then some e.2 else dictGet rest k

/-- Python membership test `k in connected_clients` (app.py line 40). -/
def dictHas (reg : Registry) (k : String) : Bool :=
  (dictGet reg k).isSome

/-- Python dict assignment `connected_clients[k] = v` (app.py line 45):
overwrites in place when the key is present, appends at the end otherwise. -/
def dictSet : Registry → String → Conn → Registry
  | [], k, v => [(k, v)]
  | e :: rest, k, v => if e.1 = k then (k, v) :: rest else e :: dictSet rest k v

/-- Python `connected_clients.pop(k, None)` (app.py lines 119 and 148):
removes the entry for the key when present, no-op otherwise. -/
def dictPop : Registry → String → Registry
  | [], _ => []
  | e :: rest, k => if e.1 = k then rest else e :: dictPop rest k

/-- Number of entries registered under a key (for stating the uniqueness
invariant of the dict model). -/
def countKey : Registry → String → Nat
  | [], _ => 0
  | e :: rest, k => (if e.1 = k then 1 else 0) + countKey rest k

/-- Keys of the registry, in order.  A Python dict always has
`(regKeys reg).Nodup`; the dict-model lemmas take it as a hypothesis. -/
def regKeys (reg : Registry) : List String := reg.map Prod.fst

/-- One outbound `clipboard_update` message, as built at app.py
lines 85-89 and 140-144: sent to `target`, carrying `text` and `source`. -/
structure OutMsg where
  target : String
  text : String
  source : String
deriving DecidableEq, Repr

/-- Result of the connect-time registration (app.py lines 40-45). -/
structure RegisterResult where
  state : ServerState
  closedPrior : Option Conn
deriving DecidableEq, Repr

/-- Connect-time registration, app.py lines 40-45: if `deviceId` is already
in `connected_clients`, the prior connection is closed (`closedPrior`
records which one); then `connected_clients[deviceId] = ws` overwrites or
inserts.  Note the prior entry is not popped: the assignment overwrites it. -/
def registerConn (st : ServerState) (deviceId : String) (ws : Conn) : RegisterResult :=
  ⟨⟨dictSet st.clients deviceId ws, st.lastClipboard⟩, dictGet st.clients deviceId⟩

/-- Session-exit cleanup, the `finally` block at app.py lines 118-119:
`connected_clients.pop(device_id, None)`, unconditionally by id. -/
def sessionCleanup (st : ServerState) (deviceId : String) : ServerState :=
  ⟨dictPop st.clients deviceId, st.lastClipboard⟩

/-- The handler-side fan-out loop, app.py lines 82-91: for every registered
entry whose id differs from `deviceId` and whose application state is
CONNECTED, attempt `send_json`; a raising send is caught in place and
logged (its id is returned in the second component) and the loop continues.
Nothing is evicted here. -/
def handlerBroadcast (deviceId content : String) : Registry → List OutMsg × List String
  | [] => ([], [])
  | (cid, c) :: rest =>
    let r := handlerBroadcast deviceId content rest
    if cid ≠ deviceId ∧ c.connected = true then
      if c.sendOk = true then (⟨cid, content, deviceId⟩ :: r.1, r.2)
      else (r.1, cid :: r.2)
    else r

/-- Result of the handler-side broadcast engine (app.py lines 76-91):
`written` is the argument of a successful `pyperclip.copy`, `errors` the
ids whose sends raised and were logged, and `crashed` records that
`pyperclip.copy` itself raised — an exception which nothing at this level
catches. -/
structure EngineResult where
  state : ServerState
  sends : List OutMsg
  errors : List String
  written : Option String
  crashed : Bool
deriving DecidableEq, Repr

/-- The handler-side broadcast engine, app.py lines 76-91: gate on
`content and content != last_clipboard`; then `pyperclip.copy(content)`
(modelled fallible via `backendOk`; the code wraps it in no try/except, so
a failure propagates as `crashed`), set `last_clipboard`, and run the
fan-out loop over `connected_clients` excluding `deviceId`. -/
def applyAndBroadcast (st : ServerState) (content originId : String)
    (backendOk : Bool) : EngineResult :=
  if content ≠ "" ∧ content ≠ st.lastClipboard then
    if backendOk then
      let b := handlerBroadcast originId content st.clients
      ⟨⟨st.clients, content⟩, b.1, b.2, some content, false⟩
    else ⟨st, [], [], none, true⟩
  else ⟨st, [], [], none, false⟩

/-- Inbound payload as the handler inspects it (app.py lines 57-112): either
`json.loads` succeeds and only the `type` and `text` fields are consulted,
or it raises `JSONDecodeError` and the raw text is used. -/
inductive Payload where
  | json (ty : Option String) (text : Option String)
  | raw (data : String)
deriving DecidableEq, Repr

/-- Observable outcome of processing one inbound message in the session
loop: the new shared state, broadcast messages attempted and delivered,
ids of logged per-target send failures, the clipboard write performed,
whether the `{"status":"success","message":"Clipboard updated"}` ack and
the pairing response were sent to the sender, and whether the session loop
is still running (`sessionAlive = false` means an uncaught exception ended
the loop: the except/finally at lines 114-124 logged it and popped the
device). -/
structure StepResult where
  state : ServerState
  sends : List OutMsg
  errors : List String
  written : Option String
  ackSent : Bool
  pairingAckSent : Bool
  sessionAlive : Bool
deriving DecidableEq, Repr

/-- The two fallback paths, app.py lines 100-105 (JSON object with a `text`
field but no matching `type`) and lines 109-112 (non-JSON payload): gate on
non-empty-and-new, `pyperclip.copy`, set `last_clipboard`.  No broadcast
loop and no acknowledgment exist in these paths.  A raising
`pyperclip.copy` is uncaught: the session ends and the finally block pops
the device. -/
def fallbackUpdate (st : ServerState) (deviceId content : String)
    (backendOk : Bool) : StepResult :=
  if content ≠ "" ∧ content ≠ st.lastClipboard then
    if backendOk then ⟨⟨st.clients, content⟩, [], [], some content, false, false, true⟩
    else ⟨sessionCleanup st deviceId, [], [], none, false, false, false⟩
  else ⟨st, [], [], none, false, false, true⟩

/-- One iteration of the session receive loop, app.py lines 57-112, plus —
when an exception escapes the iteration — the session-level except/finally
at lines 114-124.  Branch order follows the code: `pairing_request` first
(lines 64-71), then `type == 'clipboard_update' and 'text' in message`
(lines 74-97, ack sent regardless of newness), then `'text' in message`
(lines 100-105), then nothing; a non-JSON payload takes the
`JSONDecodeError` branch (lines 107-112). -/
def handleMessage (st : ServerState) (deviceId : String) (p : Payload)
    (backendOk : Bool) : StepResult :=
  match p with
  | .json ty (some content) =>
    if ty = some "pairing_request" then ⟨st, [], [], none, false, true, true⟩
    else if ty = some "clipboard_update" then
      let e := applyAndBroadcast st content deviceId backendOk
      if e.crashed then ⟨sessionCleanup st deviceId, [], [], none, false, false, false⟩
      else ⟨e.state, e.sends, e.errors, e.written, true, false, true⟩
    else fallbackUpdate st deviceId content backendOk
  | .json ty none =>
    if ty = some "pairing_request" then ⟨st, [], [], none, false, true, true⟩
    else ⟨st, [], [], none, false, false, true⟩
  | .raw data => fallbackUpdate st deviceId data backendOk

/-- Result of the poller-side fan-out loop, app.py lines 137-148. -/
structure BroadcastOut where
  registry : Registry
  sends : List OutMsg
  aborted : Bool
deriving DecidableEq, Repr

/-- The poller-side fan-out loop, app.py lines 137-148: iterate
`connected_clients.items()`, send to every CONNECTED entry (no origin
exclusion, source is `"desktop"`); a raising send is caught, logged, and
the entry is popped from `connected_clients` (line 148).  That pop mutates
the dict during iteration, so the next step of the for-loop raises
`RuntimeError` (CPython: dictionary changed size during iteration), which
is caught by the tick-level except at lines 150-151: the remaining entries
of that tick receive nothing (`aborted = true`) but stay registered. -/
def monitorBroadcast (content : String) : Registry → BroadcastOut
  | [] => ⟨[], [], false⟩
  | (cid, c) :: rest =>
    if c.connected = true then
      if c.sendOk = true then
        let r := monitorBroadcast content rest
        ⟨(cid, c) :: r.registry, ⟨cid, content, "desktop"⟩ :: r.sends, r.aborted⟩
      else ⟨rest, [], true⟩
    else
      let r := monitorBroadcast content rest
      ⟨(cid, c) :: r.registry, r.sends, r.aborted⟩

/-- Outcome of one `pyperclip.paste()` call at app.py line 132: the string
read, or a raised exception. -/
inductive ReadResult where
  | ok (content : String)
  | err
deriving DecidableEq, Repr

/-- Observable outcome of one poller tick: new state, sends delivered, and
whether the tick-level except at app.py lines 150-151 logged an error. -/
structure TickResult where
  state : ServerState
  sends : List OutMsg
  errorLogged : Bool
deriving DecidableEq, Repr

/-- One tick of the poller body, app.py lines 131-151: read the clipboard
(a raising read is caught by the tick-level except: state untouched, error
logged); gate on non-empty-and-new; set `last_clipboard` (line 134, before
the loop — it stays set even when the fan-out later aborts); fan out. -/
def monitorTick (st : ServerState) (r : ReadResult) : TickResult :=
  match r with
  | .err => ⟨st, [], true⟩
  | .ok content =>
    if content ≠ "" ∧ content ≠ st.lastClipboard then
      let b := monitorBroadcast content st.clients
      ⟨⟨b.registry, content⟩, b.sends, b.aborted⟩
    else ⟨st, [], false⟩

/-- The poller loop, app.py lines 130-153, driven by a finite trace of read
outcomes: every tick runs to completion and the loop proceeds to the next;
the second component counts completed ticks. -/
def pollerRun (st : ServerState) : List ReadResult → ServerState × Nat
  | [] => (st, 0)
  | r :: rest =>
    let k := pollerRun (monitorTick st r).state rest
    (k.1, k.2 + 1)

/-- Abbreviation for processing one tagged `clipboard_update` message
(app.py line 74: `type == 'clipboard_update' and 'text' in message`). -/
def taggedStep (st : ServerState) (devId t : String) (backendOk : Bool) : StepResult :=
  handleMessage st devId (Payload.json (some "clipboard_update") (some t)) backendOk

/-- Sample state for C1: sender `d0` plus three targets, `d2` broken. -/
def c1State : ServerState :=
  ⟨[("d0", ⟨0, true, true⟩), ("d1", ⟨1, true, true⟩),
    ("d2", ⟨2, true, false⟩), ("d3", ⟨3, true, true⟩)], ""⟩

/-- Sample state for C2: one registered, connected, healthy peer `d2`. -/
def c2State : ServerState := ⟨[("d2", ⟨1, true, true⟩)], ""⟩

/-- Sample state for C4 and C7: sender `d1` and one healthy peer `d2`. -/
def c4State : ServerState :=
  ⟨[("d1", ⟨0, true, true⟩), ("d2", ⟨1, true, true⟩)], ""⟩

/-- Sample connections and state for C3: two successive connections under
the same identifier. -/
def c3Conn1 : Conn := ⟨1, true, true⟩

/-- Second sample connection for C3. -/
def c3Conn2 : Conn := ⟨2, true, true⟩

/-- Sample state for C3's witness: one connection registered under `d`. -/
def c3State : ServerState := ⟨[("d", c3Conn1)], ""⟩

/-- Sample state for C7: one healthy peer and `lastValue = "hello"`. -/
def c7State : ServerState := ⟨[("d2", ⟨1, true, true⟩)], "hello"⟩

/-- Sample registry for C10: `a` is registered but not CONNECTED, `b` is
connected and healthy. -/
def c10Reg : Registry := [("a", ⟨5, false, true⟩), ("b", ⟨6, true, true⟩)]

/-! ## Helper lemmas about the fan-out loops and the dict model -/

lemma handlerBroadcast_cons (deviceId content cid : String) (c : Conn) (rest : Registry) :
    handlerBroadcast deviceId content ((cid, c) :: rest) =
      if cid ≠ deviceId ∧ c.connected = true then
        if c.sendOk = true then
          (⟨cid, content, deviceId⟩ :: (handlerBroadcast deviceId content rest).1,
            (handlerBroadcast deviceId content rest).2)
        else ((handlerBroadcast deviceId content rest).1,
          cid :: (handlerBroadcast deviceId content rest).2)
      else handlerBroadcast deviceId content rest := rfl

lemma monitorBroadcast_cons (content cid : String) (c : Conn) (rest : Registry) :
    monitorBroadcast content ((cid, c) :: rest) =
      if c.connected = true then
        if c.sendOk = true then
          ⟨(cid, c) :: (monitorBroadcast content rest).registry,
            ⟨cid, content, "desktop"⟩ :: (monitorBroadcast content rest).sends,
            (monitorBroadcast content rest).aborted⟩
        else ⟨rest, [], true⟩
      else ⟨(cid, c) :: (monitorBroadcast content rest).registry,
        (monitorBroadcast content rest).sends, (monitorBroadcast content rest).aborted⟩ := rfl

lemma handlerBroadcast_sends_mem (deviceId content : String) :
    ∀ (reg : Registry) (cid : String) (c : Conn),
      (cid, c) ∈ reg → cid ≠ deviceId → c.connected = true → c.sendOk = true →
      (⟨cid, content, deviceId⟩ : OutMsg) ∈ (handlerBroadcast deviceId content reg).1 := by
  intro reg
  induction reg with
  | nil => intro cid c h; simp at h
  | cons e rest ih =>
    intro cid c hmem hne hconn hok
    obtain ⟨k, cc⟩ := e
    rcases List.mem_cons.mp hmem with heq | htail
    · injection heq with hk hc
      subst hk; subst hc
      rw [handlerBroadcast_cons, if_pos ⟨hne, hconn⟩, if_pos hok]
      exact List.mem_cons_self _ _
    · have hrec := ih cid c htail hne hconn hok
      rw [handlerBroadcast_cons]
      by_cases hcond : k ≠ deviceId ∧ cc.connected = true
      · rw [if_pos hcond]
        by_cases hsk : cc.sendOk = true
        · rw [if_pos hsk]; exact List.mem_cons_of_mem _ hrec
        · rw [if_neg hsk]; exact hrec
      · rw [if_neg hcond]; exact hrec

lemma handlerBroadcast_errors_mem (deviceId content : String) :
    ∀ (reg : Registry) (cid : String) (c : Conn),
      (cid, c) ∈ reg → cid ≠ deviceId → c.connected = true → c.sendOk = false →
      cid ∈ (handlerBroadcast deviceId content reg).2 := by
  intro reg
  induction reg with
  | nil => intro cid c h; simp at h
  | cons e rest ih =>
    intro cid c hmem hne hconn hbad
    obtain ⟨k, cc⟩ := e
    rcases List.mem_cons.mp hmem with heq | htail
    · injection heq with hk hc
      subst hk; subst hc
      rw [handlerBroadcast_cons, if_pos ⟨hne, hconn⟩, if_neg (by simp [hbad])]
      exact List.mem_cons_self _ _
    · have hrec := ih cid c htail hne hconn hbad
      rw [handlerBroadcast_cons]
      by_cases hcond : k ≠ deviceId ∧ cc.connected = true
      · rw [if_pos hcond]
        by_cases hsk : cc.sendOk = true
        · rw [if_pos hsk]; exact hrec
        · rw [if_neg hsk]; exact List.mem_cons_of_mem _ hrec
      · rw [if_neg hcond]; exact hrec

lemma handlerBroadcast_sends_sound (deviceId content : String) :
    ∀ (reg : Registry) (m : OutMsg), m ∈ (handlerBroadcast deviceId content reg).1 →
      ∃ c : Conn, (m.target, c) ∈ reg ∧ c.connected = true ∧ c.sendOk = true ∧
        m.target ≠ deviceId ∧ m.text = content ∧ m.source = deviceId := by
  intro reg
  induction reg with
  | nil => intro m h; simp [handlerBroadcast] at h
  | cons e rest ih =>
    intro m hm
    obtain ⟨k, cc⟩ := e
    rw [handlerBroadcast_cons] at hm
    by_cases hcond : k ≠ deviceId ∧ cc.connected = true
    · rw [if_pos hcond] at hm
      by_cases hsk : cc.sendOk = true
      · rw [if_pos hsk] at hm
        rcases List.mem_cons.mp hm with heq | htail
        · subst heq
          exact ⟨cc, List.mem_cons_self _ _, hcond.2, hsk, hcond.1, rfl, rfl⟩
        · obtain ⟨c, hc1, hc2, hc3, hc4, hc5, hc6⟩ := ih m htail
          exact ⟨c, List.mem_cons_of_mem _ hc1, hc2, hc3, hc4, hc5, hc6⟩
      · rw [if_neg hsk] at hm
        obtain ⟨c, hc1, hc2, hc3, hc4, hc5, hc6⟩ := ih m hm
        exact ⟨c, List.mem_cons_of_mem _ hc1, hc2, hc3, hc4, hc5, hc6⟩
    · rw [if_neg hcond] at hm
      obtain ⟨c, hc1, hc2, hc3, hc4, hc5, hc6⟩ := ih m hm
      exact ⟨c, List.mem_cons_of_mem _ hc1, hc2, hc3, hc4, hc5, hc6⟩

lemma handlerBroadcast_errors_sound (deviceId content : String) :
    ∀ (reg : Registry) (x : String), x ∈ (handlerBroadcast deviceId content reg).2 →
      ∃ c : Conn, (x, c) ∈ reg ∧ c.connected = true ∧ c.sendOk = false ∧ x ≠ deviceId := by
  intro reg
  induction reg with
  | nil => intro x h; simp [handlerBroadcast] at h
  | cons e rest ih =>
    intro x hx
    obtain ⟨k, cc⟩ := e
    rw [handlerBroadcast_cons] at hx
    by_cases hcond : k ≠ deviceId ∧ cc.connected = true
    · rw [if_pos hcond] at hx
      by_cases hsk : cc.sendOk = true
      · rw [if_pos hsk] at hx
        obtain ⟨c, hc1, hc2, hc3, hc4⟩ := ih x hx
        exact ⟨c, List.mem_cons_of_mem _ hc1, hc2, hc3, hc4⟩
      · rw [if_neg hsk] at hx
        rcases List.mem_cons.mp hx with heq | htail
        · subst heq
          exact ⟨cc, List.mem_cons_self _ _, hcond.2, Bool.not_eq_true _ ▸ hsk, hcond.1⟩
        · obtain ⟨c, hc1, hc2, hc3, hc4⟩ := ih x htail
          exact ⟨c, List.mem_cons_of_mem _ hc1, hc2, hc3, hc4⟩
    · rw [if_neg hcond] at hx
      obtain ⟨c, hc1, hc2, hc3, hc4⟩ := ih x hx
      exact ⟨c, List.mem_cons_of_mem _ hc1, hc2, hc3, hc4⟩

lemma monitorBroadcast_first_failure (content : String) :
    ∀ (pre : Registry) (cid : String) (c : Conn) (post : Registry),
      (∀ e ∈ pre, e.2.connected = true ∧ e.2.sendOk = true) →
      c.connected = true → c.sendOk = false →
      monitorBroadcast content (pre ++ (cid, c) :: post) =
        ⟨pre ++ post, pre.map (fun e => ⟨e.1, content, "desktop"⟩), true⟩ := by
  intro pre
  induction pre with
  | nil =>
    intro cid c post _ hconn hbad
    rw [List.nil_append, monitorBroadcast_cons, if_pos hconn, if_neg (by simp [hbad])]
    simp
  | cons e rest ih =>
    intro cid c post hpre hconn hbad
    obtain ⟨k, cc⟩ := e
    have hhead := hpre (k, cc) (List.mem_cons_self _ _)
    have htail : ∀ x ∈ rest, x.2.connected = true ∧ x.2.sendOk = true :=
      fun x hx => hpre x (List.mem_cons_of_mem _ hx)
    rw [List.cons_append, monitorBroadcast_cons, if_pos hhead.1, if_pos hhead.2,
      ih cid c post htail hconn hbad]
    simp

/-- C1/C2-style tagged update with a non-empty, new value and a successful
backend write: closed form of the resulting step. -/
lemma taggedStep_accepted (st : ServerState) (devId t : String)
    (h1 : t ≠ "") (h2 : t ≠ st.lastClipboard) :
    taggedStep st devId t true =
      ⟨⟨st.clients, t⟩, (handlerBroadcast devId t st.clients).1,
        (handlerBroadcast devId t st.clients).2, some t, true, false, true⟩ := by
  simp [taggedStep, handleMessage, applyAndBroadcast, h1, h2]

/-! ## C1 -/

/-- C1 counterexample: in the session-handler broadcast a send failure is
logged (`errors = ["d2"]`) and delivery to the healthy targets proceeds,
but — contrary to the claim — the failing connection `d2` is NOT evicted
from the registry: it is still registered after the call. -/
theorem C1_counterexample :
    (taggedStep c1State "d0" "hello" true).errors = ["d2"]
    ∧ (taggedStep c1State "d0" "hello" true).sends =
        [⟨"d1", "hello", "d0"⟩, ⟨"d3", "hello", "d0"⟩]
    ∧ (taggedStep c1State "d0" "hello" true).sessionAlive = true
    ∧ dictGet (taggedStep c1State "d0" "hello" true).state.clients "d2" =
        some ⟨2, true, false⟩ := by decide

/-- C1 (amended): a per-target send failure in the session-handler broadcast
is caught individually — it is logged, delivery to the remaining registered
targets still occurs, and no error propagates (the session stays alive and
the ack is sent) — but the failing connection is NOT evicted: the registry
is left unchanged.  In the poller broadcast the failing connection IS
evicted, but the eviction invalidates the in-progress iteration: targets
after the failed one receive nothing that tick (the error is absorbed at
tick level), and exactly the failed entry is removed. -/
theorem C1_amended (st : ServerState) (devId t : String)
    (h1 : t ≠ "") (h2 : t ≠ st.lastClipboard) :
    ((taggedStep st devId t true).state.clients = st.clients
      ∧ (taggedStep st devId t true).sessionAlive = true
      ∧ (taggedStep st devId t true).ackSent = true
      ∧ (∀ cid c, (cid, c) ∈ st.clients → cid ≠ devId → c.connected = true → c.sendOk = false →
          cid ∈ (taggedStep st devId t true).errors)
      ∧ (∀ cid c, (cid, c) ∈ st.clients → cid ≠ devId → c.connected = true → c.sendOk = true →
          (⟨cid, t, devId⟩ : OutMsg) ∈ (taggedStep st devId t true).sends))
    ∧ (∀ (pre : Registry) (cid : String) (c : Conn) (post : Registry) (content : String),
        (∀ e ∈ pre, e.2.connected = true ∧ e.2.sendOk = true) →
        c.connected = true → c.sendOk = false →
        monitorBroadcast content (pre ++ (cid, c) :: post) =
          ⟨pre ++ post, pre.map (fun e => ⟨e.1, content, "desktop"⟩), true⟩) := by
  refine ⟨⟨?_, ?_, ?_, ?_, ?_⟩, ?_⟩
  · rw [taggedStep_accepted st devId t h1 h2]
  · rw [taggedStep_accepted st devId t h1 h2]
  · rw [taggedStep_accepted st devId t h1 h2]
  · intro cid c hm hne hc hb
    rw [taggedStep_accepted st devId t h1 h2]
    exact handlerBroadcast_errors_mem devId t st.clients cid c hm hne hc hb
  · intro cid c hm hne hc hb
    rw [taggedStep_accepted st devId t h1 h2]
    exact handlerBroadcast_sends_mem devId t st.clients cid c hm hne hc hb
  · intro pre cid c post content hpre hc hb
    exact monitorBroadcast_first_failure content pre cid c post hpre hc hb

/-- C1 witness: the amended theorem applied at a concrete state with a
broken target. -/
theorem C1_amended_witness :
    (taggedStep c1State "d0" "hello" true).state.clients = c1State.clients :=
  (C1_amended c1State "d0" "hello" (by decide) (by decide)).1.1

/-! ## C2 -/

/-- C2 counterexample: an untagged JSON payload carrying only a `text`
field, with a non-empty value that differs from `lastValue`, writes the
clipboard backend and sets `lastValue` — but sends NOTHING: the other
registered, connected, healthy peer `d2` receives no message, contrary to
the claim that the fallback broadcasts via `applyAndBroadcast`. -/
theorem C2_counterexample :
    (handleMessage c2State "d1" (Payload.json none (some "x")) true).state.lastClipboard = "x"
    ∧ (handleMessage c2State "d1" (Payload.json none (some "x")) true).written = some "x"
    ∧ (handleMessage c2State "d1" (Payload.json none (some "x")) true).sends = []
    ∧ (handleMessage c2State "d1" (Payload.raw "y") true).sends = []
    ∧ dictGet c2State.clients "d2" = some ⟨1, true, true⟩ := by decide

/-- C2 (amended): an inbound payload that is not a tagged clipboard_update
message — a JSON object carrying a `text` field without the
`clipboard_update` type, or a raw non-JSON payload — is processed as a
LOCAL-ONLY fallback update: when the text is non-empty and differs from
`lastValue` the handler writes the clipboard backend and sets `lastValue`,
but it broadcasts to no registered connection and sends no acknowledgment;
otherwise it is a complete no-op. -/
theorem C2_amended (st : ServerState) (devId : String) (ty : Option String) (t : String)
    (hty1 : ty ≠ some "pairing_request") (hty2 : ty ≠ some "clipboard_update") :
    handleMessage st devId (Payload.json ty (some t)) true = fallbackUpdate st devId t true
    ∧ (∀ d : String, handleMessage st devId (Payload.raw d) true = fallbackUpdate st devId d true)
    ∧ (t ≠ "" → t ≠ st.lastClipboard →
        fallbackUpdate st devId t true = ⟨⟨st.clients, t⟩, [], [], some t, false, false, true⟩)
    ∧ ((t = "" ∨ t = st.lastClipboard) →
        fallbackUpdate st devId t true = ⟨st, [], [], none, false, false, true⟩) := by
  refine ⟨?_, fun d => rfl, ?_, ?_⟩
  · simp [handleMessage, hty1, hty2]
  · intro ha hb; simp [fallbackUpdate, ha, hb]
  · intro h
    have hgate : ¬(t ≠ "" ∧ t ≠ st.lastClipboard) := by
      rcases h with h | h <;> simp [h]
    simp [fallbackUpdate, hgate]

/-- C2 witness: the amended theorem applied at a concrete untagged payload. -/
theorem C2_amended_witness :
    handleMessage c2State "d1" (Payload.json none (some "x")) true =
      fallbackUpdate c2State "d1" "x" true :=
  (C2_amended c2State "d1" none "x" (by decide) (by decide)).1

/-! ## Dict-model lemmas -/

lemma dictGet_eq_none_of_not_mem :
    ∀ (reg : Registry) (k : String), k ∉ regKeys reg → dictGet reg k = none := by
  intro reg
  induction reg with
  | nil => intro k _; rfl
  | cons e rest ih =>
    intro k hk
    rw [regKeys, List.map_cons, List.mem_cons] at hk
    push_neg at hk
    have hne : e.1 ≠ k := fun h => hk.1 (h.symm)
    simp [dictGet, hne, ih k hk.2]

lemma dictGet_dictSet_self :
    ∀ (reg : Registry) (k : String) (v : Conn), dictGet (dictSet reg k v) k = some v := by
  intro reg
  induction reg with
  | nil => intro k v; simp [dictSet, dictGet]
  | cons e rest ih =>
    intro k v
    by_cases h : e.1 = k
    · simp [dictSet, dictGet, h]
    · simp [dictSet, dictGet, h, ih k v]

lemma mem_regKeys_dictSet :
    ∀ (reg : Registry) (k : String) (v : Conn) (a : String),
      a ∈ regKeys (dictSet reg k v) ↔ a ∈ regKeys reg ∨ a = k := by
  intro reg
  induction reg with
  | nil => intro k v a; simp [dictSet, regKeys]
  | cons e rest ih =>
    intro k v a
    by_cases h : e.1 = k
    · simp [dictSet, regKeys, h]
      tauto
    · simp only [dictSet, if_neg h, regKeys, List.map_cons, List.mem_cons]
      rw [show (rest.map Prod.fst) = regKeys rest from rfl,
        show ((dictSet rest k v).map Prod.fst) = regKeys (dictSet rest k v) from rfl, ih k v a]
      tauto

lemma nodup_regKeys_dictSet :
    ∀ (reg : Registry) (k : String) (v : Conn),
      (regKeys reg).Nodup → (regKeys (dictSet reg k v)).Nodup := by
  intro reg
  induction reg with
  | nil => intro k v _; simp [dictSet, regKeys]
  | cons e rest ih =>
    intro k v hnd
    rw [regKeys, List.map_cons, List.nodup_cons] at hnd
    by_cases h : e.1 = k
    · simp only [dictSet, if_pos h, regKeys, List.map_cons, List.nodup_cons]
      exact ⟨h ▸ hnd.1, hnd.2⟩
    · simp only [dictSet, if_neg h, regKeys, List.map_cons, List.nodup_cons]
      refine ⟨fun hmem => ?_, ih k v hnd.2⟩
      rcases (mem_regKeys_dictSet rest k v e.1).mp hmem with hin | heq
      · exact hnd.1 hin
      · exact h heq

lemma countKey_eq_zero_of_not_mem :
    ∀ (reg : Registry) (k : String), k ∉ regKeys reg → countKey reg k = 0 := by
  intro reg
  induction reg with
  | nil => intro k _; rfl
  | cons e rest ih =>
    intro k hk
    rw [regKeys, List.map_cons, List.mem_cons] at hk
    push_neg at hk
    have hne : e.1 ≠ k := fun h => hk.1 (h.symm)
    simp [countKey, hne, ih k hk.2]

lemma countKey_dictSet_nodup :
    ∀ (reg : Registry) (k : String) (v : Conn),
      (regKeys reg).Nodup → countKey (dictSet reg k v) k = 1 := by
  intro reg
  induction reg with
  | nil => intro k v _; simp [dictSet, countKey]
  | cons e rest ih =>
    intro k v hnd
    rw [regKeys, List.map_cons, List.nodup_cons] at hnd
    by_cases h : e.1 = k
    · have hrest : countKey rest k = 0 := countKey_eq_zero_of_not_mem rest k (h ▸ hnd.1)
      simp [dictSet, countKey, h, hrest]
    · simp [dictSet, countKey, h, ih k v hnd.2]

lemma dictGet_dictPop_self :
    ∀ (reg : Registry) (k : String),
      (regKeys reg).Nodup → dictGet (dictPop reg k) k = none := by
  intro reg
  induction reg with
  | nil => intro k _; rfl
  | cons e rest ih =>
    intro k hnd
    rw [regKeys, List.map_cons, List.nodup_cons] at hnd
    by_cases h : e.1 = k
    · simp only [dictPop, if_pos h]
      exact dictGet_eq_none_of_not_mem rest k (h ▸ hnd.1)
    · simp [dictPop, dictGet, h, ih k hnd.2]

lemma countKey_dictPop_nodup :
    ∀ (reg : Registry) (k : String),
      (regKeys reg).Nodup → countKey (dictPop reg k) k = 0 := by
  intro reg
  induction reg with
  | nil => intro k _; rfl
  | cons e rest ih =>
    intro k hnd
    rw [regKeys, List.map_cons, List.nodup_cons] at hnd
    by_cases h : e.1 = k
    · simp only [dictPop, if_pos h]
      exact countKey_eq_zero_of_not_mem rest k (h ▸ hnd.1)
    · simp [dictPop, countKey, h, ih k hnd.2]

/-! ## C3 -/

/-- C3 counterexample: register `c3Conn1` under `d`, then register
`c3Conn2` under the same `d` (the prior connection is closed and the entry
overwritten — at that instant exactly the new connection is mapped to `d`).
But when the prior connection's session handler finishes, its `finally`
block pops `d` — removing the NEW connection's registration: afterwards
the registry holds NO connection under `d`, contrary to the claim that
exactly one (the new one) is mapped on every subsequent state. -/
theorem C3_counterexample :
    (registerConn (registerConn initialState "d" c3Conn1).state "d" c3Conn2).closedPrior =
        some c3Conn1
    ∧ dictGet (registerConn (registerConn initialState "d" c3Conn1).state "d"
        c3Conn2).state.clients "d" = some c3Conn2
    ∧ dictGet (sessionCleanup (registerConn (registerConn initialState "d" c3Conn1).state "d"
        c3Conn2).state "d").clients "d" = none
    ∧ countKey (sessionCleanup (registerConn (registerConn initialState "d" c3Conn1).state "d"
        c3Conn2).state "d").clients "d" = 0 := by decide

/-- C3 (amended): registering a second connection under an already-present
identifier closes the prior connection (the one the registry held) and
leaves, immediately afterward, exactly one connection — the new one —
mapped to that identifier.  This does NOT persist across the prior
connection's session cleanup: the prior handler's `finally` pops the
identifier unconditionally, after which the registry holds no connection
under it. -/
theorem C3_amended (st : ServerState) (k : String) (c : Conn)
    (hnd : (regKeys st.clients).Nodup) :
    dictGet (registerConn st k c).state.clients k = some c
    ∧ countKey (registerConn st k c).state.clients k = 1
    ∧ (registerConn st k c).closedPrior = dictGet st.clients k
    ∧ dictGet (sessionCleanup (registerConn st k c).state k).clients k = none
    ∧ countKey (sessionCleanup (registerConn st k c).state k).clients k = 0 := by
  refine ⟨dictGet_dictSet_self st.clients k c, countKey_dictSet_nodup st.clients k c hnd,
    rfl, ?_, ?_⟩
  · exact dictGet_dictPop_self (dictSet st.clients k c) k (nodup_regKeys_dictSet st.clients k c hnd)
  · exact countKey_dictPop_nodup (dictSet st.clients k c) k (nodup_regKeys_dictSet st.clients k c hnd)

/-- C3 witness: the amended theorem applied at a concrete duplicate
registration. -/
theorem C3_amended_witness :
    dictGet (registerConn c3State "d" c3Conn2).state.clients "d" = some c3Conn2 :=
  (C3_amended c3State "d" c3Conn2 (by decide)).1

/-! ## C4 -/

/-- C4 counterexample: a tagged update with a fresh value whose backend
write (`pyperclip.copy`) fails: contrary to the claim, `lastValue` is NOT
updated, NO fan-out occurs (the healthy peer `d2` gets nothing), and the
session does NOT keep running — the exception escapes the message loop and
the sender `d1` is unregistered by the `finally` block. -/
theorem C4_counterexample :
    (taggedStep c4State "d1" "x" false).state.lastClipboard = ""
    ∧ (taggedStep c4State "d1" "x" false).sends = []
    ∧ (taggedStep c4State "d1" "x" false).written = none
    ∧ (taggedStep c4State "d1" "x" false).sessionAlive = false
    ∧ dictGet (taggedStep c4State "d1" "x" false).state.clients "d1" = none := by decide

/-- C4 (amended): a failure of the local clipboard backend write during a
tagged update with a non-empty, genuinely new value is FATAL to that
session: nothing in the handler catches it, so `lastValue` stays
unchanged, no fan-out occurs, no ack is sent, the session loop ends
(the error is logged by the session-level handler, so it does not crash
the process), and the originating connection is unregistered by the
`finally` block. -/
theorem C4_amended (st : ServerState) (devId t : String)
    (h1 : t ≠ "") (h2 : t ≠ st.lastClipboard) :
    taggedStep st devId t false = ⟨sessionCleanup st devId, [], [], none, false, false, false⟩ := by
  simp [taggedStep, handleMessage, applyAndBroadcast, h1, h2]

/-- C4 witness: the amended theorem applied at a concrete failing write. -/
theorem C4_amended_witness :
    taggedStep c4State "d1" "x" false =
      ⟨sessionCleanup c4State "d1", [], [], none, false, false, false⟩ :=
  C4_amended c4State "d1" "x" (by decide) (by decide)

/-! ## C5 -/

/-- C5: the broadcast engine is deduplicating.  An empty value, or a value
equal to the current `lastValue`, is a complete no-op: state unchanged,
no backend write, nothing sent to any registered connection.  Consequently
submitting the same value twice in a row broadcasts at most once: the
second consecutive call with the same value leaves the state unchanged and
sends nothing. -/
theorem C5_no_redundant_broadcast (st : ServerState) (devId t : String) (ok : Bool) :
    ((t = "" ∨ t = st.lastClipboard) →
      applyAndBroadcast st t devId ok = ⟨st, [], [], none, false⟩)
    ∧ applyAndBroadcast (applyAndBroadcast st t devId true).state t devId true =
        ⟨(applyAndBroadcast st t devId true).state, [], [], none, false⟩ := by
  constructor
  · intro h
    have hgate : ¬(t ≠ "" ∧ t ≠ st.lastClipboard) := by
      rcases h with h | h <;> simp [h]
    simp [applyAndBroadcast, hgate]
  · by_cases hg : t ≠ "" ∧ t ≠ st.lastClipboard
    · have h1 : (applyAndBroadcast st t devId true).state = ⟨st.clients, t⟩ := by
        simp [applyAndBroadcast, hg]
      rw [h1]
      simp [applyAndBroadcast]
    · have h1 : applyAndBroadcast st t devId true = ⟨st, [], [], none, false⟩ := by
        simp [applyAndBroadcast, hg]
      rw [h1]
      simp [applyAndBroadcast, hg]

/-- C5 witness: the dedup theorem applied to an empty submission. -/
theorem C5_no_redundant_broadcast_witness :
    applyAndBroadcast c4State "" "d1" true = ⟨c4State, [], [], none, false⟩ :=
  (C5_no_redundant_broadcast c4State "d1" "" true).1 (Or.inl rfl)

/-! ## C6 -/

lemma monitorBroadcast_all_ok (content : String) :
    ∀ reg : Registry, (∀ e ∈ reg, e.2.connected = true ∧ e.2.sendOk = true) →
      monitorBroadcast content reg =
        ⟨reg, reg.map (fun e => ⟨e.1, content, "desktop"⟩), false⟩ := by
  intro reg
  induction reg with
  | nil => intro _; rfl
  | cons e rest ih =>
    intro h
    obtain ⟨k, c⟩ := e
    have hh := h (k, c) (List.mem_cons_self _ _)
    rw [monitorBroadcast_cons, if_pos hh.1, if_pos hh.2,
      ih (fun x hx => h x (List.mem_cons_of_mem _ hx))]
    simp

/-- C6: the handler-side engine never self-echoes — no message produced by
`applyAndBroadcast` targets the originating identifier, whatever the
origin, value, or backend outcome; and the poller-side fan-out (origin:
the local sentinel `"desktop"`) excludes no one — when every registered
connection is CONNECTED and its send succeeds, every registered connection
receives the update. -/
theorem C6_no_self_echo (st : ServerState) :
    (∀ (content originId : String) (ok : Bool) (m : OutMsg),
        m ∈ (applyAndBroadcast st content originId ok).sends → m.target ≠ originId)
    ∧ (∀ content : String, content ≠ "" → content ≠ st.lastClipboard →
        (∀ e ∈ st.clients, e.2.connected = true ∧ e.2.sendOk = true) →
        (monitorTick st (ReadResult.ok content)).sends =
          st.clients.map (fun e => ⟨e.1, content, "desktop"⟩)
        ∧ ∀ cid c, (cid, c) ∈ st.clients →
            (⟨cid, content, "desktop"⟩ : OutMsg) ∈ (monitorTick st (ReadResult.ok content)).sends) := by
  constructor
  · intro content originId ok m hm
    by_cases hg : content ≠ "" ∧ content ≠ st.lastClipboard
    · cases ok with
      | false => simp [applyAndBroadcast, hg] at hm
      | true =>
        have hs : (applyAndBroadcast st content originId true).sends =
            (handlerBroadcast originId content st.clients).1 := by
          simp [applyAndBroadcast, hg]
        rw [hs] at hm
        obtain ⟨c, _, _, _, hne, _, _⟩ := handlerBroadcast_sends_sound originId content st.clients m hm
        exact hne
    · simp [applyAndBroadcast, hg] at hm
  · intro content h1 h2 hall
    have ht : monitorTick st (ReadResult.ok content) =
        ⟨⟨(monitorBroadcast content st.clients).registry, content⟩,
          (monitorBroadcast content st.clients).sends,
          (monitorBroadcast content st.clients).aborted⟩ := by
      simp [monitorTick, h1, h2]
    rw [monitorBroadcast_all_ok content st.clients hall] at ht
    constructor
    · rw [ht]
    · intro cid c hm
      rw [ht]
      exact List.mem_map_of_mem _ hm

/-- C6 witness: the no-exclusion half applied at a concrete state where
both peers are healthy. -/
theorem C6_no_self_echo_witness :
    (monitorTick c4State (ReadResult.ok "w")).sends =
      c4State.clients.map (fun e => ⟨e.1, "w", "desktop"⟩) :=
  ((C6_no_self_echo c4State).2 "w" (by decide) (by decide) (by decide)).1

/-! ## C7 -/

/-- C7: a tagged `clipboard_update` message carrying a `text` field is
always acknowledged to the sender with the success message, whether or not
the value was new; in particular when the text equals `lastValue` the
sender still gets the ack while the state is untouched, nothing is written
to the backend, and no broadcast occurs. -/
theorem C7_ack_regardless (st : ServerState) (devId t : String) :
    (taggedStep st devId t true).ackSent = true
    ∧ (t = st.lastClipboard →
        (taggedStep st devId t true).sends = []
        ∧ (taggedStep st devId t true).state = st
        ∧ (taggedStep st devId t true).written = none) := by
  constructor
  · by_cases hg : t ≠ "" ∧ t ≠ st.lastClipboard
    · rw [taggedStep_accepted st devId t hg.1 hg.2]
    · simp [taggedStep, handleMessage, applyAndBroadcast, hg]
  · intro h
    have hgate : ¬(t ≠ "" ∧ t ≠ st.lastClipboard) := by simp [h]
    simp [taggedStep, handleMessage, applyAndBroadcast, hgate]

/-- C7 witness: resending the current `lastValue` still acks, and nothing
is broadcast. -/
theorem C7_ack_regardless_witness :
    (taggedStep c7State "d1" "hello" true).sends = [] :=
  ((C7_ack_regardless c7State "d1" "hello").2 rfl).1

/-! ## C8 -/

/-- C8: the poller is total — a failed clipboard read is absorbed by the
tick-level handler with the state untouched and an error logged, the loop
always proceeds from each tick's resulting state to the next tick, every
tick of a trace is completed, and a trace beginning with a bad read ends in
the same state as the trace without it. -/
theorem C8_poller_never_terminates :
    (∀ s : ServerState, monitorTick s ReadResult.err = ⟨s, [], true⟩)
    ∧ (∀ (s : ServerState) (r : ReadResult) (rest : List ReadResult),
        pollerRun s (r :: rest) =
          ((pollerRun (monitorTick s r).state rest).1,
            (pollerRun (monitorTick s r).state rest).2 + 1))
    ∧ (∀ (s : ServerState) (inputs : List ReadResult),
        (pollerRun s inputs).2 = inputs.length)
    ∧ (∀ (s : ServerState) (rest : List ReadResult),
        (pollerRun s (ReadResult.err :: rest)).1 = (pollerRun s rest).1) := by
  refine ⟨fun s => rfl, fun s r rest => rfl, ?_, ?_⟩
  · intro s inputs
    induction inputs generalizing s with
    | nil => rfl
    | cons r rest ih => simp [pollerRun, ih]
  · intro s rest
    have h : monitorTick s ReadResult.err = ⟨s, [], true⟩ := rfl
    simp [pollerRun, h]

/-! ## C9 -/

lemma fallbackUpdate_last (st : ServerState) (devId t : String) (ok : Bool) :
    (fallbackUpdate st devId t ok).state.lastClipboard = st.lastClipboard
    ∨ ((fallbackUpdate st devId t ok).state.lastClipboard ≠ ""
        ∧ (fallbackUpdate st devId t ok).state.lastClipboard ≠ st.lastClipboard) := by
  by_cases hg : t ≠ "" ∧ t ≠ st.lastClipboard
  · cases ok with
    | true =>
      have h : (fallbackUpdate st devId t true).state.lastClipboard = t := by
        simp [fallbackUpdate, hg]
      rw [h]
      exact Or.inr ⟨hg.1, hg.2⟩
    | false =>
      left
      simp [fallbackUpdate, hg, sessionCleanup]
  · left
    simp [fallbackUpdate, hg]

lemma handleMessage_last (st : ServerState) (devId : String) (p : Payload) (ok : Bool) :
    (handleMessage st devId p ok).state.lastClipboard = st.lastClipboard
    ∨ ((handleMessage st devId p ok).state.lastClipboard ≠ ""
        ∧ (handleMessage st devId p ok).state.lastClipboard ≠ st.lastClipboard) := by
  cases p with
  | raw d => exact fallbackUpdate_last st devId d ok
  | json ty txt =>
    cases txt with
    | none =>
      simp only [handleMessage]
      by_cases hp : ty = some "pairing_request"
      · rw [if_pos hp]; left; rfl
      · rw [if_neg hp]; left; rfl
    | some content =>
      simp only [handleMessage]
      by_cases hp : ty = some "pairing_request"
      · rw [if_pos hp]; left; rfl
      · rw [if_neg hp]
        by_cases hcu : ty = some "clipboard_update"
        · rw [if_pos hcu]
          by_cases hg : content ≠ "" ∧ content ≠ st.lastClipboard
          · cases ok with
            | true =>
              have he : applyAndBroadcast st content devId true =
                  ⟨⟨st.clients, content⟩, (handlerBroadcast devId content st.clients).1,
                    (handlerBroadcast devId content st.clients).2, some content, false⟩ := by
                simp [applyAndBroadcast, hg]
              rw [he]
              right
              exact ⟨hg.1, hg.2⟩
            | false =>
              have he : applyAndBroadcast st content devId false =
                  ⟨st, [], [], none, true⟩ := by
                simp [applyAndBroadcast, hg]
              rw [he]
              left; rfl
          · have he : applyAndBroadcast st content devId ok = ⟨st, [], [], none, false⟩ := by
              simp [applyAndBroadcast, hg]
            rw [he]
            left; rfl
        · rw [if_neg hcu]
          exact fallbackUpdate_last st devId content ok

lemma monitorTick_last (st : ServerState) (r : ReadResult) :
    (monitorTick st r).state.lastClipboard = st.lastClipboard
    ∨ ((monitorTick st r).state.lastClipboard ≠ ""
        ∧ (monitorTick st r).state.lastClipboard ≠ st.lastClipboard) := by
  cases r with
  | err => left; rfl
  | ok content =>
    by_cases hg : content ≠ "" ∧ content ≠ st.lastClipboard
    · have h : (monitorTick st (ReadResult.ok content)).state.lastClipboard = content := by
        simp [monitorTick, hg]
      rw [h]
      exact Or.inr ⟨hg.1, hg.2⟩
    · left
      simp [monitorTick, hg]

/-- C9: `lastValue` is only ever mutated to a non-empty string that differs
from its current value.  It starts empty; every handler step and every
poller tick either leaves it unchanged or sets it to a different, non-empty
string; registration and cleanup never touch it; and once non-empty it
never becomes empty again. -/
theorem C9_lastValue_only_grows :
    initialState.lastClipboard = ""
    ∧ (∀ (st : ServerState) (devId : String) (p : Payload) (ok : Bool),
        (handleMessage st devId p ok).state.lastClipboard = st.lastClipboard
        ∨ ((handleMessage st devId p ok).state.lastClipboard ≠ ""
            ∧ (handleMessage st devId p ok).state.lastClipboard ≠ st.lastClipboard))
    ∧ (∀ (st : ServerState) (r : ReadResult),
        (monitorTick st r).state.lastClipboard = st.lastClipboard
        ∨ ((monitorTick st r).state.lastClipboard ≠ ""
            ∧ (monitorTick st r).state.lastClipboard ≠ st.lastClipboard))
    ∧ (∀ (st : ServerState) (k : String) (c : Conn),
        (registerConn st k c).state.lastClipboard = st.lastClipboard)
    ∧ (∀ (st : ServerState) (k : String),
        (sessionCleanup st k).lastClipboard = st.lastClipboard)
    ∧ (∀ (st : ServerState) (devId : String) (p : Payload) (ok : Bool),
        st.lastClipboard ≠ "" → (handleMessage st devId p ok).state.lastClipboard ≠ "")
    ∧ (∀ (st : ServerState) (r : ReadResult),
        st.lastClipboard ≠ "" → (monitorTick st r).state.lastClipboard ≠ "") := by
  refine ⟨rfl, handleMessage_last, monitorTick_last, fun st k c => rfl, fun st k => rfl, ?_, ?_⟩
  · intro st devId p ok hne
    rcases handleMessage_last st devId p ok with h | h
    · rw [h]; exact hne
    · exact h.1
  · intro st r hne
    rcases monitorTick_last st r with h | h
    · rw [h]; exact hne
    · exact h.1

/-- C9 witness: the persistence half applied at a state with a non-empty
`lastValue` and a raw payload. -/
theorem C9_lastValue_only_grows_witness :
    (handleMessage c7State "d1" (Payload.raw "z") true).state.lastClipboard ≠ "" :=
  C9_lastValue_only_grows.2.2.2.2.2.1 c7State "d1" (Payload.raw "z") true (by decide)

/-! ## C10 -/

lemma monitorBroadcast_sends_sound (content : String) :
    ∀ (reg : Registry) (m : OutMsg), m ∈ (monitorBroadcast content reg).sends →
      ∃ c : Conn, (m.target, c) ∈ reg ∧ c.connected = true ∧ c.sendOk = true ∧
        m.text = content ∧ m.source = "desktop" := by
  intro reg
  induction reg with
  | nil => intro m h; simp [monitorBroadcast] at h
  | cons e rest ih =>
    intro m hm
    obtain ⟨k, cc⟩ := e
    rw [monitorBroadcast_cons] at hm
    by_cases hc : cc.connected = true
    · rw [if_pos hc] at hm
      by_cases hsk : cc.sendOk = true
      · rw [if_pos hsk] at hm
        rcases List.mem_cons.mp hm with heq | htail
        · subst heq
          exact ⟨cc, List.mem_cons_self _ _, hc, hsk, rfl, rfl⟩
        · obtain ⟨c, hc1, hc2, hc3, hc4, hc5⟩ := ih m htail
          exact ⟨c, List.mem_cons_of_mem _ hc1, hc2, hc3, hc4, hc5⟩
      · rw [if_neg hsk] at hm
        simp at hm
    · rw [if_neg hc] at hm
      obtain ⟨c, hc1, hc2, hc3, hc4, hc5⟩ := ih m hm
      exact ⟨c, List.mem_cons_of_mem _ hc1, hc2, hc3, hc4, hc5⟩

lemma monitorBroadcast_keeps_disconnected (content : String) :
    ∀ (reg : Registry) (cid : String) (c : Conn),
      (cid, c) ∈ reg → c.connected = false →
      (cid, c) ∈ (monitorBroadcast content reg).registry := by
  intro reg
  induction reg with
  | nil => intro cid c h; simp at h
  | cons e rest ih =>
    intro cid c hmem hdis
    obtain ⟨k, cc⟩ := e
    rw [monitorBroadcast_cons]
    rcases List.mem_cons.mp hmem with heq | htail
    · injection heq with hk hc
      subst hk; subst hc
      rw [if_neg (by simp [hdis])]
      exact List.mem_cons_self _ _
    · by_cases hc : cc.connected = true
      · rw [if_pos hc]
        by_cases hsk : cc.sendOk = true
        · rw [if_pos hsk]
          exact List.mem_cons_of_mem _ (ih cid c htail hdis)
        · rw [if_neg hsk]
          exact htail
      · rw [if_neg hc]
        exact List.mem_cons_of_mem _ (ih cid c htail hdis)

lemma regKeys_unique :
    ∀ (reg : Registry), (regKeys reg).Nodup →
      ∀ (k : String) (a b : Conn), (k, a) ∈ reg → (k, b) ∈ reg → a = b := by
  intro reg
  induction reg with
  | nil => intro _ k a b ha; simp at ha
  | cons e rest ih =>
    intro hnd k a b ha hb
    rw [regKeys, List.map_cons, List.nodup_cons] at hnd
    rcases List.mem_cons.mp ha with hea | hta
    · rcases List.mem_cons.mp hb with heb | htb
      · rw [← hea] at heb
        injection heb with _ hc
        exact hc.symm
      · exfalso
        apply hnd.1
        have hk : k ∈ rest.map Prod.fst := List.mem_map_of_mem Prod.fst htb
        rw [← hea]
        exact hk
    · rcases List.mem_cons.mp hb with heb | htb
      · exfalso
        apply hnd.1
        have hk : k ∈ rest.map Prod.fst := List.mem_map_of_mem Prod.fst hta
        rw [← heb]
        exact hk
      · exact ih hnd.2 k a b hta htb

/-- C10: both fan-outs attempt a send only to connections in the CONNECTED
state — every delivered message and every logged send failure belongs to a
registered CONNECTED connection; a registered connection that is not
CONNECTED is silently skipped: the handler-side broadcast leaves the
registry untouched, the poller-side broadcast keeps the disconnected entry
registered, and (under the dict key-uniqueness invariant) no poller send
targets its identifier. -/
theorem C10_connected_only :
    (∀ (deviceId content : String) (reg : Registry) (m : OutMsg),
        m ∈ (handlerBroadcast deviceId content reg).1 →
        ∃ c : Conn, (m.target, c) ∈ reg ∧ c.connected = true)
    ∧ (∀ (content : String) (reg : Registry) (m : OutMsg),
        m ∈ (monitorBroadcast content reg).sends →
        ∃ c : Conn, (m.target, c) ∈ reg ∧ c.connected = true)
    ∧ (∀ (deviceId content : String) (reg : Registry) (x : String),
        x ∈ (handlerBroadcast deviceId content reg).2 →
        ∃ c : Conn, (x, c) ∈ reg ∧ c.connected = true)
    ∧ (∀ (st : ServerState) (devId t : String), t ≠ "" → t ≠ st.lastClipboard →
        (taggedStep st devId t true).state.clients = st.clients)
    ∧ (∀ (content : String) (reg : Registry) (cid : String) (c : Conn),
        (cid, c) ∈ reg → c.connected = false →
        (cid, c) ∈ (monitorBroadcast content reg).registry)
    ∧ (∀ (content : String) (reg : Registry) (cid : String) (c : Conn),
        (regKeys reg).Nodup → (cid, c) ∈ reg → c.connected = false →
        ∀ m ∈ (monitorBroadcast content reg).sends, m.target ≠ cid) := by
  refine ⟨?_, ?_, ?_, ?_, ?_, ?_⟩
  · intro deviceId content reg m hm
    obtain ⟨c, hc1, hc2, _, _, _, _⟩ := handlerBroadcast_sends_sound deviceId content reg m hm
    exact ⟨c, hc1, hc2⟩
  · intro content reg m hm
    obtain ⟨c, hc1, hc2, _, _, _⟩ := monitorBroadcast_sends_sound content reg m hm
    exact ⟨c, hc1, hc2⟩
  · intro deviceId content reg x hx
    obtain ⟨c, hc1, hc2, _, _⟩ := handlerBroadcast_errors_sound deviceId content reg x hx
    exact ⟨c, hc1, hc2⟩
  · intro st devId t h1 h2
    rw [taggedStep_accepted st devId t h1 h2]
  · exact fun content => monitorBroadcast_keeps_disconnected content
  · intro content reg cid c hnd hmem hdis m hm heq
    obtain ⟨c', hc'1, hc'2, _, _, _⟩ := monitorBroadcast_sends_sound content reg m hm
    rw [heq] at hc'1
    have : c' = c := regKeys_unique reg hnd cid c' c hc'1 hmem
    rw [this] at hc'2
    rw [hdis] at hc'2
    exact Bool.false_ne_true hc'2

/-- C10 witness: a registered but non-CONNECTED connection survives the
poller fan-out untouched. -/
theorem C10_connected_only_witness :
    ("a", (⟨5, false, true⟩ : Conn)) ∈ (monitorBroadcast "w" c10Reg).registry :=
  C10_connected_only.2.2.2.2.1 "w" c10Reg "a" ⟨5, false, true⟩ (by decide) (by decide)

end ClipSync

